import Mathlib

/-!
Shallow embedding of the EDF_Monitoring_Automation log-to-issue pipeline
(src/helpers.py and the result-cleaning step of src/monitoring_app.py),
together with theorems settling the specification claims.

Classifier predictions (scikit-learn `clf.predict` / `clf.predict_proba` on
`vectorizer.transform([line])`) are opaque numeric computations; they are
modelled by an arbitrary function `P : String → String × ℚ` giving the
predicted label and its top probability for a line.  Python floats are
modelled as rationals: every claim here is about exact threshold
comparisons, never float rounding.
-/

namespace EDF

/-! ### Python string primitives used by helpers.py -/

/-- Whitespace characters stripped by Python `str.strip()` (ASCII range;
the source's log lines and thresholds only involve ASCII). -/
def pyIsSpace (c : Char) : Bool :=
  c = ' ' || c = '\t' || c = '\n' || c = '\r' || c = Char.ofNat 11 || c = Char.ofNat 12

/-- Python `str.strip()`: drop leading and trailing whitespace. -/
def pyStrip (s : String) : String :=
  String.mk (((s.toList.dropWhile pyIsSpace).reverse.dropWhile pyIsSpace).reverse)

/-- Python `str.lower()` (ASCII case folding). -/
def pyLower (s : String) : String :=
  String.mk (s.toList.map Char.toLower)

/-- Line-break characters recognised by Python `str.splitlines()`. -/
def pyIsLineBreak (c : Char) : Bool :=
  c = '\n' || c = '\r' || c = Char.ofNat 11 || c = Char.ofNat 12 ||
  c = Char.ofNat 28 || c = Char.ofNat 29 || c = Char.ofNat 30 ||
  c = Char.ofNat 133 || c = Char.ofNat 8232 || c = Char.ofNat 8233

/-- Worker for `pySplitlines`; `acc` holds the current line reversed. -/
def splitlinesAux : List Char → List Char → List String
  | [], acc => if acc.isEmpty then [] else [String.mk acc.reverse]
  | '\r' :: '\n' :: rest, acc => String.mk acc.reverse :: splitlinesAux rest []
  | c :: rest, acc =>
    if pyIsLineBreak c then String.mk acc.reverse :: splitlinesAux rest []
    else splitlinesAux rest (c :: acc)

/-- Python `str.splitlines()`: split at line boundaries (treating `\r\n` as
one boundary), no trailing empty line for a trailing newline. -/
def pySplitlines (s : String) : List String :=
  splitlinesAux s.toList []

/-- Does `pat` occur as a prefix of `l`? -/
def charsPrefixOf : List Char → List Char → Bool
  | [], _ => true
  | _ :: _, [] => false
  | a :: as, b :: bs => a = b && charsPrefixOf as bs

/-- Does `pat` occur as a contiguous run inside `l`? -/
def charsOccursIn (pat : List Char) : List Char → Bool
  | [] => pat.isEmpty
  | c :: rest => charsPrefixOf pat (c :: rest) || charsOccursIn pat rest

/-- Substring containment on strings, the semantics of both Python's
`needle in hay` and `re.search` applied to a plain alternation of literal
words. -/
def strContains (hay needle : String) : Bool :=
  charsOccursIn needle.toList hay.toList

/-! ### Learning Store (helpers.py: init_learning_db / add_or_update_subcategory /
get_all_training_data)

The sqlite `categories` table is modelled as a list of rows in rowid
(insertion) order; `datetime.now().isoformat()` is passed in as `now`. -/

/-- One row of the `categories` table. -/
structure Row where
  parent_category : String
  sub_category : String
  keywords : List String
  last_seen : String
deriving DecidableEq, Repr

/-- helpers.py `add_or_update_subcategory`: the first row matching
(parent, subcat) — sqlite `fetchone` in rowid order — has its keywords and
last_seen replaced in place; if none matches, a fresh row is appended. -/
def add_or_update_subcategory (now parent subcat : String) (kws : List String) :
    List Row → List Row
  | [] => [⟨parent, subcat, kws, now⟩]
  | r :: rs =>
    if r.parent_category = parent ∧ r.sub_category = subcat then
      ⟨r.parent_category, r.sub_category, kws, now⟩ :: rs
    else
      r :: add_or_update_subcategory now parent subcat kws rs

/-- helpers.py `get_all_training_data`: flatten each row's keyword list into
(keyword, sub_category) pairs, in table order. -/
def get_all_training_data (db : List Row) : List (String × String) :=
  db.flatMap fun r => r.keywords.map fun kw => (kw, r.sub_category)

/-- Number of rows of `db` for the (parent, subcat) pair. -/
def pairCount (db : List Row) (p s : String) : Nat :=
  (db.filter fun r => decide (r.parent_category = p ∧ r.sub_category = s)).length

/-- First row of `db` for the (parent, subcat) pair, if any. -/
def findPair (db : List Row) (p s : String) : Option Row :=
  db.find? fun r => decide (r.parent_category = p ∧ r.sub_category = s)

/-! ### ML model section (helpers.py: train_ml_classifier / predict_subcategory)

Fitting (`TfidfVectorizer.fit_transform` + `LogisticRegression.fit`) is
opaque: it is an arbitrary function `fit` from the (texts, labels) columns
to a model value of an arbitrary type `M` (`M` bundles the co-persisted
vectorizer and classifier blobs).  `joblib.dump` persistence is modelled by
returning the persisted model alongside the result. -/

/-- The bootstrap `sample_logs` of helpers.py line 76. -/
def sample_logs : List String :=
  ["database connection failed", "cpu usage high", "disk full",
   "login failed", "backup failed"]

/-- The bootstrap label column `y` of helpers.py line 83. -/
def sample_labels : List String :=
  ["DB issue", "Infra issue", "Infra issue", "Security", "Backup"]

/-- helpers.py `train_ml_classifier`: when the store yields no training
data the fixed bootstrap set is fitted instead; the fitted model is both
persisted (second component) and returned (first component). -/
def train_ml_classifier {M : Type} (fit : List String → List String → M)
    (db : List Row) : M × Option M :=
  let data := get_all_training_data db
  if data.isEmpty then
    let m := fit sample_logs sample_labels
    (m, some m)
  else
    let m := fit (data.map Prod.fst) (data.map Prod.snd)
    (m, some m)

/-- helpers.py `predict_subcategory`: blank input is rejected with
`(none, 0)` and an untouched store; otherwise the prediction `P log_line`
is accepted (returned, and upserted into the store) exactly when its
probability reaches `threshold`.  The returned pair is
((accepted label, probability), store after the call). -/
def predict_subcategory (P : String → String × ℚ) (now : String)
    (log_line parent_category : String) (threshold : ℚ) (db : List Row) :
    (Option String × ℚ) × List Row :=
  if (pyStrip log_line).isEmpty then ((none, 0), db)
  else
    let pred := (P log_line).1
    let prob := (P log_line).2
    if prob ≥ threshold then
      ((some pred, prob), add_or_update_subcategory now parent_category pred [log_line] db)
    else
      ((none, prob), db)

/-! ### Log classifier (helpers.py: filter_logs_by_category) -/

/-- The regex `(error|fail|warn|exception|timeout)` searched in the
lower-cased line: a plain alternation of literals, i.e. substring match of
any of the five tokens. -/
def keyword_match (lower_line : String) : Bool :=
  strContains lower_line "error" || strContains lower_line "fail" ||
  strContains lower_line "warn" || strContains lower_line "exception" ||
  strContains lower_line "timeout"

/-- The accumulation loop of `filter_logs_by_category`: a matching line is
appended as-is to `filtered` and stripped to `matched`. -/
def filterLoop : List String → List String × List String
  | [] => ([], [])
  | line :: rest =>
    let tail := filterLoop rest
    if keyword_match (pyLower line) then
      (line :: tail.1, pyStrip line :: tail.2)
    else
      tail

/-- helpers.py `filter_logs_by_category`: returns
(`"\n".join(filtered)`, `matched`). -/
def filter_logs_by_category (log_text category : String) : String × List String :=
  let r := filterLoop (pySplitlines log_text)
  (String.intercalate "\n" r.1, r.2)

/-! ### Issue detector (helpers.py: local_log_ai) -/

/-- An issue record: either the sentinel no-issue dict (only an
`Inference` key) or a full issue dict. -/
inductive IssueRec where
  | sentinel (inference : String)
  | real (inference severity : String) (reasons : List String)
      (action why businessImpact : String)
deriving DecidableEq, Repr

/-- The sentinel `{"Inference": f"No issues found for {category}"}`. -/
def noIssuesSentinel (category : String) : IssueRec :=
  IssueRec.sentinel ("No issues found for " ++ category)

/-- The body of `local_log_ai`'s per-line loop: the line is kept when
`"issue" in pred.lower() or prob > 0.6`, with severity
`"High" if prob > 0.8 else "Medium" if prob > 0.6 else "Low"`. -/
def llaLine (P : String → String × ℚ) (category line : String) : Option IssueRec :=
  let pred := (P line).1
  let prob := (P line).2
  if strContains (pyLower pred) "issue" || prob > 6/10 then
    some (IssueRec.real ("Issue detected in " ++ category)
      (if prob > 8/10 then "High" else if prob > 6/10 then "Medium" else "Low")
      [pyStrip line]
      "Investigate the issue"
      "Detected unusual or problematic log behavior"
      "Potential service degradation or outage")
  else
    none

/-- helpers.py `local_log_ai`: blank text short-circuits to the sentinel;
otherwise every line of `log_text` is scored and the retained lines become
issues, with the sentinel returned when none is retained.  The
`matched_lines` argument is accepted (default `None` in the source) but
never read; the model (`P`) is loaded or trained before the loop, which the
embedding reflects by taking `P` as given. -/
def local_log_ai (P : String → String × ℚ) (log_text category : String)
    (matched_lines : Option (List String)) : List IssueRec :=
  if (pyStrip log_text).isEmpty then [noIssuesSentinel category]
  else
    let issues := (pySplitlines log_text).filterMap (llaLine P category)
    if issues.isEmpty then [noIssuesSentinel category] else issues

/-- Modelled from the spec: the per-line candidate rule in the spec's own
words — a line is excluded exactly when its confidence is ≤ 0.6 and the
predicted label does not contain an "issue" marker (case-insensitive);
a retained line's severity is High for confidence > 0.8, Medium for
0.6 < confidence ≤ 0.8, and Low otherwise.  Used only to compare
`local_log_ai` against the claimed thresholding rule. -/
def specCandidate (P : String → String × ℚ) (category line : String) : Option IssueRec :=
  let pred := (P line).1
  let conf := (P line).2
  if conf ≤ 6/10 ∧ strContains (pyLower pred) "issue" = false then
    none
  else
    some (IssueRec.real ("Issue detected in " ++ category)
      (if conf > 8/10 then "High"
       else if 6/10 < conf ∧ conf ≤ 8/10 then "Medium" else "Low")
      [pyStrip line]
      "Investigate the issue"
      "Detected unusual or problematic log behavior"
      "Potential service degradation or outage")

/-! ### Result cleaning (monitoring_app.py: process_category lines 78–89)

Entries of the backend's result list are arbitrary Python values; the
cleaning step only inspects whether an entry is a dict and what its
`"Inference"` key holds, so an entry is modelled by exactly that
observation (`dict none` is a dict without an `Inference` key). -/

/-- One entry of a backend result list, as seen by `process_category`. -/
inductive Entry where
  | dict (inference : Option String)
  | nondict
deriving DecidableEq, Repr

/-- The filter of monitoring_app.py line 81: an entry counts as a real
issue when it is a dict whose `Inference` differs from the sentinel text. -/
def isRealIssueEntry (e : Entry) : Bool :=
  match e with
  | .dict inf => decide (inf ≠ some "No issues in this category")
  | .nondict => false

/-- monitoring_app.py lines 81–86: keep only the real issues when at least
one exists, otherwise keep the list as is. -/
def clean_results (result_list : List Entry) : List Entry :=
  let real_issues := result_list.filter isRealIssueEntry
  if real_issues.isEmpty then result_list else real_issues

/-- A concrete prediction function used by witnesses: every line gets the
same label and probability. -/
def constPred (label : String) (q : ℚ) : String → String × ℚ :=
  fun _ => (label, q)

/-! ### Shared lemmas -/

/-- The loop of `filter_logs_by_category` computes the filter of the lines
by the keyword predicate, paired with its stripped image. -/
theorem filterLoop_spec (l : List String) :
    filterLoop l =
      (l.filter fun s => keyword_match (pyLower s),
       (l.filter fun s => keyword_match (pyLower s)).map pyStrip) := by
  induction l with
  | nil => rfl
  | cons line rest ih =>
    by_cases h : keyword_match (pyLower line) = true
    · simp [filterLoop, List.filter_cons, h, ih]
    · simp [filterLoop, List.filter_cons, h, ih]

/-- A line survives `llaLine` as `some` record only in the `real` shape
produced by the loop body. -/
theorem llaLine_real (P : String → String × ℚ) (c line : String) (e : IssueRec)
    (h : llaLine P c line = some e) :
    ∃ sev reasons, e = IssueRec.real ("Issue detected in " ++ c) sev reasons
      "Investigate the issue" "Detected unusual or problematic log behavior"
      "Potential service degradation or outage" := by
  simp only [llaLine] at h
  by_cases hc :
      (strContains (pyLower (P line).1) "issue" || decide ((P line).2 > 6/10)) = true
  · rw [if_pos hc] at h
    exact ⟨_, _, (Option.some.inj h).symm⟩
  · rw [if_neg hc] at h
    cases h

/-- The per-line loop body of `local_log_ai` coincides with the spec's
candidate rule: exclusion exactly at confidence ≤ 0.6 with no "issue"
marker, severity by the 0.8 / 0.6 thresholds. -/
theorem llaLine_eq_specCandidate (P : String → String × ℚ) (c line : String) :
    llaLine P c line = specCandidate P c line := by
  unfold llaLine specCandidate
  by_cases hM : strContains (pyLower (P line).1) "issue" = true
  · by_cases h8 : (P line).2 > 8/10
    · have h6 : (P line).2 > 6/10 := lt_trans (by norm_num) h8
      simp [hM, h8, h6, not_le.mpr h6]
    · by_cases h6 : (P line).2 > 6/10
      · simp [hM, h8, h6, not_le.mpr h6, not_lt.mp h8]
      · simp [hM, h8, h6, not_lt.mp h6]
  · have hM' : strContains (pyLower (P line).1) "issue" = false := by
      simpa using hM
    by_cases h8 : (P line).2 > 8/10
    · have h6 : (P line).2 > 6/10 := lt_trans (by norm_num) h8
      simp [hM', h8, h6, not_le.mpr h6]
    · by_cases h6 : (P line).2 > 6/10
      · simp [hM', h8, h6, not_le.mpr h6, not_lt.mp h8]
      · simp [hM', h8, h6, not_lt.mp h6]

/-- With no row for the pair present, the upsert appends a fresh row. -/
theorem upsert_of_pairCount_zero (now p s : String) (kws : List String)
    (db : List Row) (h : pairCount db p s = 0) :
    add_or_update_subcategory now p s kws db = db ++ [⟨p, s, kws, now⟩] := by
  induction db with
  | nil => rfl
  | cons r rs ih =>
    by_cases hr : r.parent_category = p ∧ r.sub_category = s
    · exact absurd h (by simp [pairCount, List.filter_cons, hr])
    · have h' : pairCount rs p s = 0 := by
        simpa [pairCount, List.filter_cons, hr] using h
      simp [add_or_update_subcategory, hr, ih h']

/-- With a row for the pair present, the upsert keeps the table length. -/
theorem upsert_length_of_pairCount_pos (now p s : String) (kws : List String)
    (db : List Row) (h : 0 < pairCount db p s) :
    (add_or_update_subcategory now p s kws db).length = db.length := by
  induction db with
  | nil => simp [pairCount] at h
  | cons r rs ih =>
    by_cases hr : r.parent_category = p ∧ r.sub_category = s
    · simp [add_or_update_subcategory, hr]
    · have h' : 0 < pairCount rs p s := by
        simpa [pairCount, List.filter_cons, hr] using h
      simp [add_or_update_subcategory, hr, ih h']

/-- The row count for the pair after an upsert is the old count, raised to
one if it was zero. -/
theorem pairCount_upsert (now p s : String) (kws : List String) (db : List Row) :
    pairCount (add_or_update_subcategory now p s kws db) p s =
      max (pairCount db p s) 1 := by
  induction db with
  | nil => simp [add_or_update_subcategory, pairCount, List.filter_cons]
  | cons r rs ih =>
    by_cases hr : r.parent_category = p ∧ r.sub_category = s
    · simp only [add_or_update_subcategory, if_pos hr]
      have hr' : (⟨r.parent_category, r.sub_category, kws, now⟩ : Row).parent_category = p ∧
          (⟨r.parent_category, r.sub_category, kws, now⟩ : Row).sub_category = s := hr
      simp [pairCount, List.filter_cons, hr, hr']
    · simp only [add_or_update_subcategory, if_neg hr]
      simp [pairCount, List.filter_cons, hr] at ih ⊢
      exact ih

/-- After an upsert, the first row found for the pair is exactly the row
just written: latest keywords and latest timestamp. -/
theorem findPair_upsert (now p s : String) (kws : List String) (db : List Row) :
    findPair (add_or_update_subcategory now p s kws db) p s =
      some ⟨p, s, kws, now⟩ := by
  induction db with
  | nil => simp [add_or_update_subcategory, findPair]
  | cons r rs ih =>
    by_cases hr : r.parent_category = p ∧ r.sub_category = s
    · obtain ⟨h1, h2⟩ := hr
      simp [add_or_update_subcategory, findPair, h1, h2]
    · simp only [add_or_update_subcategory, if_neg hr]
      simpa [findPair, List.find?_cons, hr] using ih

/-- On blank input, `local_log_ai` short-circuits to the sentinel. -/
theorem local_log_ai_blank (P : String → String × ℚ) (t c : String)
    (ml : Option (List String)) (hb : (pyStrip t).isEmpty = true) :
    local_log_ai P t c ml = [noIssuesSentinel c] := by
  simp [local_log_ai, hb]

/-- On non-blank input with no retained line, `local_log_ai` returns the
sentinel. -/
theorem local_log_ai_no_retained (P : String → String × ℚ) (t c : String)
    (ml : Option (List String)) (hb : (pyStrip t).isEmpty = false)
    (hi : (pySplitlines t).filterMap (llaLine P c) = []) :
    local_log_ai P t c ml = [noIssuesSentinel c] := by
  simp [local_log_ai, hb, hi]

/-- On non-blank input with a retained line, `local_log_ai` returns the
retained issues. -/
theorem local_log_ai_retained (P : String → String × ℚ) (t c : String)
    (ml : Option (List String)) (hb : (pyStrip t).isEmpty = false)
    (hi : (pySplitlines t).filterMap (llaLine P c) ≠ []) :
    local_log_ai P t c ml = (pySplitlines t).filterMap (llaLine P c) := by
  simp [local_log_ai, hb, hi]

/-! ### Claim theorems -/

/-- C1: for every prediction function, non-blank log text, category and
`matched_lines` argument, `local_log_ai` behaves exactly as the spec's
thresholding rule: a line is excluded exactly when its confidence is ≤ 0.6
and its predicted label has no case-insensitive "issue" substring; a
retained line's severity is "High" for confidence > 0.8, "Medium" for
0.6 < confidence ≤ 0.8, and "Low" otherwise (with the sentinel returned
when nothing is retained). -/
theorem local_log_ai_severity_thresholds (P : String → String × ℚ)
    (t c : String) (ml : Option (List String))
    (hb : (pyStrip t).isEmpty = false) :
    local_log_ai P t c ml =
      if ((pySplitlines t).filterMap (specCandidate P c)).isEmpty then
        [noIssuesSentinel c]
      else
        (pySplitlines t).filterMap (specCandidate P c) := by
  have hfun : llaLine P c = specCandidate P c :=
    funext (llaLine_eq_specCandidate P c)
  simp only [local_log_ai, hb, Bool.false_eq_true, if_false, hfun]

/-- Witness for C1 at a concrete high-confidence prediction. -/
theorem local_log_ai_severity_thresholds_witness :
    (pyStrip "conn timeout").isEmpty = false ∧
    local_log_ai (constPred "DB issue" (9/10)) "conn timeout" "Oracle" none =
      if ((pySplitlines "conn timeout").filterMap
            (specCandidate (constPred "DB issue" (9/10)) "Oracle")).isEmpty then
        [noIssuesSentinel "Oracle"]
      else
        (pySplitlines "conn timeout").filterMap
          (specCandidate (constPred "DB issue" (9/10)) "Oracle") :=
  ⟨by decide,
   local_log_ai_severity_thresholds (constPred "DB issue" (9/10))
     "conn timeout" "Oracle" none (by decide)⟩

/-- C2: `local_log_ai` never returns an empty sequence; blank input or an
empty retained set yields exactly the single sentinel, and a non-empty
retained set yields exactly those retained records, all of which are real
issue records. -/
theorem local_log_ai_never_empty (P : String → String × ℚ) (t c : String)
    (ml : Option (List String)) :
    local_log_ai P t c ml ≠ [] ∧
    (((pyStrip t).isEmpty = true ∨ (pySplitlines t).filterMap (llaLine P c) = []) →
      local_log_ai P t c ml = [noIssuesSentinel c]) ∧
    ((pyStrip t).isEmpty = false →
      (pySplitlines t).filterMap (llaLine P c) ≠ [] →
      local_log_ai P t c ml = (pySplitlines t).filterMap (llaLine P c) ∧
      ∀ e ∈ local_log_ai P t c ml, ∃ sev reasons,
        e = IssueRec.real ("Issue detected in " ++ c) sev reasons
          "Investigate the issue" "Detected unusual or problematic log behavior"
          "Potential service degradation or outage") := by
  by_cases hb : (pyStrip t).isEmpty = true
  · have he := local_log_ai_blank P t c ml hb
    exact ⟨by simp [he], fun _ => he, fun hb' _ => absurd hb (by simp [hb'])⟩
  · have hb' : (pyStrip t).isEmpty = false := by simpa using hb
    by_cases hi : (pySplitlines t).filterMap (llaLine P c) = []
    · have he := local_log_ai_no_retained P t c ml hb' hi
      exact ⟨by simp [he], fun _ => he, fun _ hi' => absurd hi hi'⟩
    · have he := local_log_ai_retained P t c ml hb' hi
      refine ⟨by simp [he, hi], fun hor => ?_, fun _ _ => ⟨he, ?_⟩⟩
      · rcases hor with h | h
        · exact absurd h (by simp [hb'])
        · exact absurd h hi
      · intro e he'
        rw [he] at he'
        obtain ⟨line, _, hline⟩ := List.mem_filterMap.mp he'
        exact llaLine_real P c line e hline

/-- Witness for C2 on an empty log text. -/
theorem local_log_ai_never_empty_witness :
    local_log_ai (constPred "ok" (1/2)) "" "GIS" none ≠ [] ∧
    local_log_ai (constPred "ok" (1/2)) "" "GIS" none = [noIssuesSentinel "GIS"] :=
  ⟨(local_log_ai_never_empty (constPred "ok" (1/2)) "" "GIS" none).1,
   (local_log_ai_never_empty (constPred "ok" (1/2)) "" "GIS" none).2.1
     (Or.inl (by decide))⟩

/-- C9: `filter_logs_by_category` is deterministic and category-agnostic —
in the pure embedding any two category arguments give identical results. -/
theorem filter_category_agnostic (t c1 c2 : String) :
    filter_logs_by_category t c1 = filter_logs_by_category t c2 := rfl

/-- C10: `local_log_ai` never reads its `matched_lines` argument — any two
values of it give identical results. -/
theorem local_log_ai_ignores_matched_lines (P : String → String × ℚ)
    (t c : String) (ml1 ml2 : Option (List String)) :
    local_log_ai P t c ml1 = local_log_ai P t c ml2 := rfl

/-- C3: on non-blank input, `predict_subcategory` at confidence ≥ threshold
returns the predicted label and leaves the store equal to exactly one
upsert of (parent, predicted label, [text]) applied to the old store, and
at confidence < threshold returns no accepted label and leaves the store
untouched. -/
theorem predict_subcategory_gate_effect (P : String → String × ℚ)
    (now t parent : String) (thr : ℚ) (db : List Row)
    (hb : (pyStrip t).isEmpty = false) :
    ((P t).2 ≥ thr →
      predict_subcategory P now t parent thr db =
        ((some (P t).1, (P t).2),
         add_or_update_subcategory now parent (P t).1 [t] db)) ∧
    ((P t).2 < thr →
      predict_subcategory P now t parent thr db = ((none, (P t).2), db)) := by
  constructor
  · intro hge
    simp [predict_subcategory, hb, hge]
  · intro hlt
    simp [predict_subcategory, hb, not_le.mpr hlt]

/-- Witness for C3: a confident prediction upserts once; an unconfident one
leaves the store untouched. -/
theorem predict_subcategory_gate_effect_witness :
    (pyStrip "disk full").isEmpty = false ∧
    ((constPred "Infra issue" (9/10)) "disk full").2 ≥ 8/10 ∧
    predict_subcategory (constPred "Infra issue" (9/10)) "T1" "disk full"
        "Infra" (8/10) [] =
      ((some "Infra issue", 9/10),
       add_or_update_subcategory "T1" "Infra" "Infra issue" ["disk full"] []) ∧
    ((constPred "Infra issue" (1/2)) "disk full").2 < 8/10 ∧
    predict_subcategory (constPred "Infra issue" (1/2)) "T1" "disk full"
        "Infra" (8/10) [] = ((none, 1/2), []) :=
  ⟨by decide, by norm_num [constPred],
   (predict_subcategory_gate_effect (constPred "Infra issue" (9/10)) "T1"
     "disk full" "Infra" (8/10) [] (by decide)).1 (by norm_num [constPred]),
   by norm_num [constPred],
   (predict_subcategory_gate_effect (constPred "Infra issue" (1/2)) "T1"
     "disk full" "Infra" (8/10) [] (by decide)).2 (by norm_num [constPred])⟩

/-- C4 counterexample: on the one-line log `" error"` the filter strips the
matched line, so `matched_lines = ["error"]` is neither a subsequence of
the input's lines (`[" error"]`) nor the same lines as the returned
filtered text. -/
theorem filter_matched_lines_stripped_cex :
    (filter_logs_by_category " error" "DB").2 = ["error"] ∧
    pySplitlines " error" = [" error"] ∧
    ¬ List.Sublist (filter_logs_by_category " error" "DB").2 (pySplitlines " error") ∧
    (filter_logs_by_category " error" "DB").2 ≠
      pySplitlines (filter_logs_by_category " error" "DB").1 := by
  refine ⟨by decide, by decide, fun h => ?_, by decide⟩
  exact absurd (h.subset (show "error" ∈ ["error"] by decide)) (by decide)

/-- C4 (amended): the filter selects exactly the lines whose lower-cased
form contains one of the five keyword tokens; the filtered text is those
selected lines joined by newline, while `matched_lines` is the selected
lines each stripped of surrounding whitespace, in the same order; the
selected lines form a subsequence of the input's lines and lines not
matching the predicate never contribute. -/
theorem filter_logs_selected_amended (t c : String) :
    (filter_logs_by_category t c).1 =
      String.intercalate "\n"
        ((pySplitlines t).filter fun l => keyword_match (pyLower l)) ∧
    (filter_logs_by_category t c).2 =
      ((pySplitlines t).filter fun l => keyword_match (pyLower l)).map pyStrip ∧
    List.Sublist ((pySplitlines t).filter fun l => keyword_match (pyLower l)) (pySplitlines t) ∧
    (∀ l ∈ (pySplitlines t).filter fun l => keyword_match (pyLower l),
      keyword_match (pyLower l) = true) ∧
    (∀ l ∈ pySplitlines t, keyword_match (pyLower l) = false →
      l ∉ (pySplitlines t).filter fun l => keyword_match (pyLower l)) := by
  refine ⟨?_, ?_, List.filter_sublist _, ?_, ?_⟩
  · simp [filter_logs_by_category, filterLoop_spec]
  · simp [filter_logs_by_category, filterLoop_spec]
  · intro l hl
    exact (List.mem_filter.mp hl).2
  · intro l _ hf hl
    exact absurd (List.mem_filter.mp hl).2 (by simp [hf])

/-- Witness for the amended C4 at a concrete two-line log. -/
theorem filter_logs_selected_amended_witness :
    (filter_logs_by_category " error\nheartbeat ok" "DB").2 =
      ((pySplitlines " error\nheartbeat ok").filter
        fun l => keyword_match (pyLower l)).map pyStrip ∧
    List.Sublist ((pySplitlines " error\nheartbeat ok").filter
      fun l => keyword_match (pyLower l)) (pySplitlines " error\nheartbeat ok") :=
  ⟨(filter_logs_selected_amended " error\nheartbeat ok" "DB").2.1,
   (filter_logs_selected_amended " error\nheartbeat ok" "DB").2.2.1⟩

/-- C5: within one category's result, a sentinel and a real issue never
coexist: any `local_log_ai` result containing a real issue record contains
no sentinel, and the `process_category` cleaning step drops every sentinel
entry whenever the backend list holds at least one real issue. -/
theorem sentinel_real_mutual_exclusion :
    (∀ (P : String → String × ℚ) (t c : String) (ml : Option (List String))
       (e : IssueRec), e ∈ local_log_ai P t c ml →
       (∃ i sev r a w b, e = IssueRec.real i sev r a w b) →
       ∀ e' ∈ local_log_ai P t c ml, ∀ i, e' ≠ IssueRec.sentinel i) ∧
    (∀ (l : List Entry) (e : Entry), e ∈ l → isRealIssueEntry e = true →
       Entry.dict (some "No issues in this category") ∉ clean_results l) := by
  constructor
  · intro P t c ml e he hreal e' he' i
    by_cases hb : (pyStrip t).isEmpty = true
    · rw [local_log_ai_blank P t c ml hb] at he
      obtain ⟨_, _, _, _, _, _, rfl⟩ := hreal
      simp [noIssuesSentinel] at he
    · have hb' : (pyStrip t).isEmpty = false := by simpa using hb
      by_cases hi : (pySplitlines t).filterMap (llaLine P c) = []
      · rw [local_log_ai_no_retained P t c ml hb' hi] at he
        obtain ⟨_, _, _, _, _, _, rfl⟩ := hreal
        simp [noIssuesSentinel] at he
      · rw [local_log_ai_retained P t c ml hb' hi] at he'
        obtain ⟨line, _, hline⟩ := List.mem_filterMap.mp he'
        obtain ⟨sev, reasons, rfl⟩ := llaLine_real P c line e' hline
        simp
  · intro l e hel hreal hmem
    have hne : l.filter isRealIssueEntry ≠ [] := by
      intro h0
      have hm : e ∈ l.filter isRealIssueEntry := List.mem_filter.mpr ⟨hel, hreal⟩
      rw [h0] at hm
      cases hm
    rw [show clean_results l = l.filter isRealIssueEntry from by
          simp [clean_results, hne]] at hmem
    have := (List.mem_filter.mp hmem).2
    simp [isRealIssueEntry] at this

/-- Witness for C5: the backend-path cleaning at a concrete mixed list. -/
theorem sentinel_real_mutual_exclusion_witness :
    isRealIssueEntry (Entry.dict (some "boom")) = true ∧
    Entry.dict (some "No issues in this category") ∉
      clean_results
        [Entry.dict (some "No issues in this category"), Entry.dict (some "boom")] :=
  ⟨by decide,
   sentinel_real_mutual_exclusion.2
     [Entry.dict (some "No issues in this category"), Entry.dict (some "boom")]
     (Entry.dict (some "boom")) (by decide) (by decide)⟩

/-- C6: starting from a table with at most one row for the pair, the upsert
inserts a fresh row exactly when the pair is absent (keeping the length
otherwise), restores exactly one row for the pair, and applying it twice
with the same (parent, subcat, keywords) leaves exactly one row for the
pair carrying the latest keywords and timestamp. -/
theorem upsert_unique_and_idempotent (now1 now2 p s : String)
    (kws : List String) (db : List Row) (h : pairCount db p s ≤ 1) :
    (pairCount db p s = 0 →
      add_or_update_subcategory now1 p s kws db = db ++ [⟨p, s, kws, now1⟩]) ∧
    (0 < pairCount db p s →
      (add_or_update_subcategory now1 p s kws db).length = db.length) ∧
    pairCount (add_or_update_subcategory now1 p s kws db) p s = 1 ∧
    pairCount (add_or_update_subcategory now2 p s kws
      (add_or_update_subcategory now1 p s kws db)) p s = 1 ∧
    findPair (add_or_update_subcategory now2 p s kws
      (add_or_update_subcategory now1 p s kws db)) p s =
      some ⟨p, s, kws, now2⟩ := by
  refine ⟨upsert_of_pairCount_zero now1 p s kws db,
          upsert_length_of_pairCount_pos now1 p s kws db, ?_, ?_,
          findPair_upsert now2 p s kws _⟩
  · rw [pairCount_upsert]
    omega
  · rw [pairCount_upsert, pairCount_upsert]
    omega

/-- Witness for C6 on a concrete one-row table. -/
theorem upsert_unique_and_idempotent_witness :
    pairCount [(⟨"Infra", "Disk", ["disk full"], "T0"⟩ : Row)] "Infra" "Disk" ≤ 1 ∧
    pairCount (add_or_update_subcategory "T2" "Infra" "Disk" ["disk latency"]
      (add_or_update_subcategory "T1" "Infra" "Disk" ["disk latency"]
        [⟨"Infra", "Disk", ["disk full"], "T0"⟩])) "Infra" "Disk" = 1 ∧
    findPair (add_or_update_subcategory "T2" "Infra" "Disk" ["disk latency"]
      (add_or_update_subcategory "T1" "Infra" "Disk" ["disk latency"]
        [⟨"Infra", "Disk", ["disk full"], "T0"⟩])) "Infra" "Disk" =
      some ⟨"Infra", "Disk", ["disk latency"], "T2"⟩ :=
  ⟨by decide,
   (upsert_unique_and_idempotent "T1" "T2" "Infra" "Disk" ["disk latency"]
     [⟨"Infra", "Disk", ["disk full"], "T0"⟩] (by decide)).2.2.2.1,
   (upsert_unique_and_idempotent "T1" "T2" "Infra" "Disk" ["disk latency"]
     [⟨"Infra", "Disk", ["disk full"], "T0"⟩] (by decide)).2.2.2.2⟩

/-- C7: when the store yields no training data, `train_ml_classifier` fits
the fixed five-pair bootstrap set spanning database, infrastructure,
security and backup labels, persists that model and returns it. -/
theorem train_bootstrap_fallback {M : Type} (fit : List String → List String → M)
    (db : List Row) (h : get_all_training_data db = []) :
    train_ml_classifier fit db =
      (fit sample_logs sample_labels, some (fit sample_logs sample_labels)) ∧
    sample_logs.length = 5 ∧ sample_labels.length = 5 ∧
    "DB issue" ∈ sample_labels ∧ "Infra issue" ∈ sample_labels ∧
    "Security" ∈ sample_labels ∧ "Backup" ∈ sample_labels := by
  refine ⟨?_, by decide, by decide, by decide, by decide, by decide, by decide⟩
  simp [train_ml_classifier, h]

/-- Witness for C7 on the empty store. -/
theorem train_bootstrap_fallback_witness :
    get_all_training_data [] = [] ∧
    train_ml_classifier (fun _ _ => (0 : Nat)) [] =
      ((fun _ _ => (0 : Nat)) sample_logs sample_labels,
       some ((fun _ _ => (0 : Nat)) sample_logs sample_labels)) :=
  ⟨rfl, (train_bootstrap_fallback (fun _ _ => (0 : Nat)) [] rfl).1⟩

/-- C8: blank or whitespace-only input makes `predict_subcategory` return
no label and confidence 0 with the store untouched, and the returned pair
does not depend on the model, threshold, parent or store. -/
theorem predict_blank_rejected (P P2 : String → String × ℚ)
    (now now2 parent parent2 : String) (thr thr2 : ℚ) (db db2 : List Row)
    (t : String) (h : (pyStrip t).isEmpty = true) :
    predict_subcategory P now t parent thr db = ((none, 0), db) ∧
    (predict_subcategory P now t parent thr db).1 =
      (predict_subcategory P2 now2 t parent2 thr2 db2).1 := by
  constructor
  · simp [predict_subcategory, h]
  · simp [predict_subcategory, h]

/-- Witness for C8 on a whitespace-only line. -/
theorem predict_blank_rejected_witness :
    (pyStrip "  \t ").isEmpty = true ∧
    predict_subcategory (constPred "DB issue" 1) "T1" "  \t " "Infra" (8/10)
        [⟨"p", "s", ["k"], "T0"⟩] = ((none, 0), [⟨"p", "s", ["k"], "T0"⟩]) :=
  ⟨by decide,
   (predict_blank_rejected (constPred "DB issue" 1) (constPred "DB issue" 1)
     "T1" "T1" "Infra" "Infra" (8/10) (8/10)
     [⟨"p", "s", ["k"], "T0"⟩] [⟨"p", "s", ["k"], "T0"⟩] "  \t " (by decide)).1⟩

end EDF
